import Mathlib

/-!
# Verification of the LinkedIn OAuth2 authorization-callback handshake

Shallow embedding of the core logic of `src/index.tsx` of
`react-native-linkedin-oauth2`:

* `getAuthorizationUrl`-adjacent helpers are not needed by the claims;
  the embedding covers the navigation interception handler
  (`handleNavigationStateChange`), the handshake executor
  (`handleAuthCallback`) and the platform primitives they rely on
  (JavaScript string operations, WHATWG `URL` / `URLSearchParams`
  lookup, `fetch`, JavaScript truthiness and the `||` operator).

Modelling conventions:

* Machine strings are Lean `String`s; the JavaScript operations
  `String.prototype.startsWith` / `includes` / `toLowerCase` are
  embedded as list-of-characters functions (`strStartsWith`,
  `strContains`, `asciiLowerStr`).  `toLowerCase` is modelled on the
  ASCII range only, which is exact for every string the code compares
  against (the needle `"network request failed"` is ASCII).
* `new URL(url)` either throws (the URL has no valid scheme) or
  yields an object whose only observable used by the code is
  `searchParams`.  `parseURL` returns `none` exactly when the WHATWG
  parser would throw for lack of a `scheme:` prefix; finer WHATWG
  failure modes (empty host for special schemes, invalid ports…) are
  not modelled and no theorem below relies on URLs in that grey zone.
* `URLSearchParams` lookup: the query is the part of the URL after the
  first `?` that precedes the first `#`; it is split on `&`, empty
  segments are discarded, each segment is split at its first `=`, and
  both sides are form-decoded (`+` ↦ space, `%hh` ↦ the byte `hh`).
  Multi-byte UTF-8 percent sequences are decoded byte-wise (Latin-1
  view); this is exact on the ASCII range, and no theorem below
  depends on non-ASCII decoding.
* `fetch` and `response.json()` are modelled by an oracle `World`
  fixing, for each of the two requests the code can make, whether the
  transport promise rejects (carrying the rejection `Error` message,
  e.g. `"Network request failed"`), and otherwise the response's `ok`
  flag, `statusText`, and the result of `json()` — which itself either
  resolves with a JSON value or rejects with the JSON parser's message
  (as it does on an empty or syntactically invalid body).
* Thrown values are their `Error` messages (every value this code can
  throw or receive as a rejection is an `Error`).
* Callbacks (`onSuccess`, `onError`, `setIsLoading`, `onClose`,
  `onLogout`) do not throw; invoking one is recorded as an event in an
  execution trace, so that ordering and multiplicity of invocations
  and of network requests are observable.
-/

/-- JavaScript `needle.isPrefixOf hay` on character lists
(`String.prototype.startsWith`). -/
def listPrefixOf : List Char → List Char → Bool
  | [], _ => true
  | _ :: _, [] => false
  | c :: cs, d :: ds => c = d && listPrefixOf cs ds

/-- Does `hay` contain `needle` as a contiguous substring?
(JavaScript `String.prototype.includes`). -/
def listInfixOf (needle : List Char) : List Char → Bool
  | [] => needle.isEmpty
  | c :: cs => listPrefixOf needle (c :: cs) || listInfixOf needle cs

/-- `url.startsWith(prefixStr)` of JavaScript. -/
def strStartsWith (s p : String) : Bool :=
  listPrefixOf p.data s.data

/-- `s.includes(pat)` of JavaScript. -/
def strContains (s pat : String) : Bool :=
  listInfixOf pat.data s.data

/-- ASCII lower-casing of one character (`String.prototype.toLowerCase`,
restricted to the ASCII range, which is exact for the comparisons the
code performs). -/
def asciiLower (c : Char) : Char :=
  if 'A' ≤ c ∧ c ≤ 'Z' then Char.ofNat (c.toNat + 32) else c

/-- ASCII lower-casing of a string. -/
def asciiLowerStr (s : String) : String :=
  String.mk (s.data.map asciiLower)

/-- Value of one hexadecimal digit, if any. -/
def hexVal (c : Char) : Option Nat :=
  if '0' ≤ c ∧ c ≤ '9' then some (c.toNat - '0'.toNat)
  else if 'a' ≤ c ∧ c ≤ 'f' then some (c.toNat - 'a'.toNat + 10)
  else if 'A' ≤ c ∧ c ≤ 'F' then some (c.toNat - 'A'.toNat + 10)
  else none

/-- `application/x-www-form-urlencoded` decoding, as performed by
`URLSearchParams` on keys and values: `+` becomes a space, `%hh`
becomes the byte `hh` (byte-wise view, exact on ASCII), malformed
percent escapes are kept verbatim. -/
def formDecode : List Char → List Char
  | [] => []
  | '+' :: cs => ' ' :: formDecode cs
  | '%' :: c₁ :: c₂ :: cs =>
    match hexVal c₁, hexVal c₂ with
    | some h, some l => Char.ofNat (16 * h + l) :: formDecode cs
    | _, _ => '%' :: formDecode (c₁ :: c₂ :: cs)
  | c :: cs => c :: formDecode cs

/-- The characters strictly after the first occurrence of `target`
(empty when `target` does not occur). -/
def afterChar (target : Char) : List Char → List Char
  | [] => []
  | c :: cs => if c = target then cs else afterChar target cs

/-- Split a character list on a separator (the separators are dropped). -/
def splitOnChar (sep : Char) : List Char → List (List Char)
  | [] => [[]]
  | c :: cs =>
    if c = sep then [] :: splitOnChar sep cs
    else
      match splitOnChar sep cs with
      | [] => [[c]]
      | g :: gs => (c :: g) :: gs

/-- Parse one `key=value` segment of a query string (no `=`: the whole
segment is the key and the value is empty), form-decoding both sides. -/
def parsePair (seg : List Char) : String × String :=
  (String.mk (formDecode (seg.takeWhile (· ≠ '='))),
   String.mk (formDecode ((seg.dropWhile (· ≠ '=')).drop 1)))

/-- The decoded key/value pairs of a URL string's query component, in
order: the query is what follows the first `?` preceding the first `#`;
empty `&`-segments are skipped, exactly as `URLSearchParams` does. -/
def parseQuery (l : List Char) : List (String × String) :=
  ((splitOnChar '&' (afterChar '?' (l.takeWhile (· ≠ '#')))).filter
      (fun seg => !seg.isEmpty)).map parsePair

/-- Is `l` headed by a valid `scheme:` prefix (one ASCII letter, then
letters/digits/`+`/`-`/`.`, then a colon)?  `new URL` throws exactly
when this fails (up to the finer special-scheme host rules, which are
out of modelled scope). -/
def schemeRest : List Char → Bool
  | [] => false
  | c :: cs =>
    if c = ':' then true
    else (c.isAlpha || c.isDigit || c = '+' || c = '-' || c = '.') && schemeRest cs

/-- Validity of the scheme prefix of an absolute URL string. -/
def hasValidScheme : List Char → Bool
  | [] => false
  | c :: cs => c.isAlpha && schemeRest cs

/-- The observable part of a parsed WHATWG `URL`: its search
parameters. -/
structure ParsedURL where
  query : List (String × String)
deriving Repr

/-- `new URL(url)`: `none` models the constructor throwing. -/
def parseURL (url : String) : Option ParsedURL :=
  if hasValidScheme url.data then some ⟨parseQuery url.data⟩ else none

/-- `searchParams.get(name)`: value of the first parameter named
`name`, or `none` for JavaScript `null`. -/
def urlGet (u : ParsedURL) (name : String) : Option String :=
  (u.query.find? (fun kv => kv.1 == name)).map (·.2)

/-- Does `url` parse and carry a query parameter named `name`?
(Used to state claims that speak of "a `name` query parameter".) -/
def hasQueryParam (url name : String) : Bool :=
  match parseURL url with
  | some u => (urlGet u name).isSome
  | none => false

/-- JavaScript truthiness of a `string | null` value (`null` and `""`
are falsy). -/
def strOptTruthy : Option String → Bool
  | none => false
  | some s => !(s == "")

/-- JavaScript `a || b` for a `string | null` left operand. -/
def jsOrDefault (o : Option String) (dflt : String) : String :=
  match o with
  | some s => if s == "" then dflt else s
  | none => dflt

/-- A JSON value, as produced by a resolving `response.json()`
(`undefined` is impossible there, so it has no constructor). -/
inductive JVal where
  | jnull
  | jbool (b : Bool)
  | jnum (n : Int)
  | jstr (s : String)
  | jarr (elems : List JVal)
  | jobj (fields : List (String × JVal))

/-- JavaScript truthiness of a JSON value (`null`, `false`, `0` and
`""` are the falsy ones a JSON parse can produce). -/
def jTruthy : JVal → Bool
  | .jnull => false
  | .jbool b => b
  | .jnum n => !(n == 0)
  | .jstr s => !(s == "")
  | .jarr _ => true
  | .jobj _ => true

/-- Property access `v.name` on a JSON value: `none` models
`undefined` (missing field or non-object receiver). -/
def jGet (v : JVal) (name : String) : Option JVal :=
  match v with
  | .jobj fields => (fields.find? (fun kv => kv.1 == name)).map (·.2)
  | _ => none

/-- Truthiness of a possibly-`undefined` property. -/
def jOptTruthy : Option JVal → Bool
  | none => false
  | some v => jTruthy v

/-- JavaScript `String(v)` for the JSON values that can reach
`new Error(...)` in this code. -/
def jToString : JVal → String
  | .jnull => "null"
  | .jbool true => "true"
  | .jbool false => "false"
  | .jnum n => toString n
  | .jstr s => s
  | .jarr _ => ""
  | .jobj _ => "[object Object]"

/-- JavaScript `a || b` where `a` is a possibly-`undefined` JSON
property and the result is fed to `new Error(...)` (hence
stringified). -/
def jsOrString (o : Option JVal) (dflt : String) : String :=
  match o with
  | some v => if jTruthy v then jToString v else dflt
  | none => dflt

/-- One `fetch` response that resolved at the transport level:
its `ok` flag, `statusText`, and the behaviour of `json()` —
`Except.error m` models `json()` rejecting with message `m`
(which is what happens on an empty or syntactically invalid body),
`Except.ok v` models it resolving with the parsed value `v`. -/
structure FetchResult where
  ok : Bool
  statusText : String
  jsonResult : Except String JVal

/-- The network oracle for one handshake run: behaviour of the POST to
the token endpoint and of the GET to the profile endpoint.
`Except.error m` models the `fetch` promise itself rejecting with an
`Error` whose message is `m` (e.g. `"Network request failed"`). -/
structure World where
  tokenFetch : Except String FetchResult
  profileFetch : Except String FetchResult

/-- Observable events of one run: loading-flag writes, network
requests actually issued, and host-callback invocations. -/
inductive Ev where
  | setLoading (b : Bool)
  | fetchToken
  | fetchProfile
  | cbSuccess (profile : JVal)
  | cbError (msg : String)
  | cbClose
  | cbLogout

/-- The engine-specific message of the `TypeError` thrown by
`new URL(url)` on an invalid URL.  No theorem depends on its text. -/
def invalidURLMessage (url : String) : String :=
  "Invalid URL: " ++ url

/-- The `try` block of `handleAuthCallback` (src/index.tsx lines
309–376), minus the `setIsLoading` writes and the continuation calls:
returns the network events it issued, and either the thrown `Error`
message or the parsed profile that reaches `onSuccess`. -/
def authAttempt (url _clientId _clientSecret _redirectUri : String)
    (w : World) : List Ev × Except String JVal :=
  match parseURL url with
  | none => ([], .error (invalidURLMessage url))
  | some u =>
    let authCode := urlGet u "code"
    let errorDescription := urlGet u "error_description"
    if strOptTruthy errorDescription then
      ([], .error (errorDescription.getD ""))
    else if !strOptTruthy authCode then
      ([], .error "Authentication failed. No authorization code found.")
    else
      match w.tokenFetch with
      | .error m => ([.fetchToken], .error m)
      | .ok tokenResponse =>
        if !tokenResponse.ok then
          let errorData := match tokenResponse.jsonResult with
            | .ok v => v
            | .error _ => .jobj []
          ([.fetchToken],
           .error (jsOrString (jGet errorData "error_description")
             ("Failed to get access token: " ++ tokenResponse.statusText)))
        else
          match tokenResponse.jsonResult with
          | .error m => ([.fetchToken], .error m)
          | .ok tokenData =>
            if !jOptTruthy (jGet tokenData "access_token") then
              ([.fetchToken],
               .error "Authentication failed. No access token received.")
            else
              match w.profileFetch with
              | .error m => ([.fetchToken, .fetchProfile], .error m)
              | .ok profileResponse =>
                if !profileResponse.ok then
                  let errorData := match profileResponse.jsonResult with
                    | .ok v => v
                    | .error _ => .jobj []
                  ([.fetchToken, .fetchProfile],
                   .error (jsOrString (jGet errorData "message")
                     ("Failed to fetch profile: " ++ profileResponse.statusText)))
                else
                  match profileResponse.jsonResult with
                  | .error m => ([.fetchToken, .fetchProfile], .error m)
                  | .ok profileData =>
                    if !jTruthy profileData then
                      ([.fetchToken, .fetchProfile],
                       .error "Failed to parse profile data.")
                    else
                      ([.fetchToken, .fetchProfile], .ok profileData)

/-- The `catch` block's error normalization (src/index.tsx lines
377–387): a message containing `"network request failed"`
case-insensitively is replaced by the fixed user-facing message. -/
def normalizeErrorMessage (m : String) : String :=
  if strContains (asciiLowerStr m) "network request failed" then
    "Network error. Please check your internet connection."
  else m

/-- `handleAuthCallback` (src/index.tsx lines 300–391): sets the
loading flag, runs the `try` block, routes the outcome to the
`onSuccess` or (after normalization) `onError` continuation, and
clears the loading flag in the `finally`.  A continuation is given by
the events its invocation emits. -/
def handleAuthCallback (url clientId clientSecret redirectUri : String)
    (w : World) (onSuccess : JVal → List Ev)
    (onError : String → List Ev) : List Ev :=
  let r := authAttempt url clientId clientSecret redirectUri w
  Ev.setLoading true ::
    (r.1 ++
      (match r.2 with
       | .ok profileData => onSuccess profileData
       | .error m => onError (normalizeErrorMessage m)) ++
      [Ev.setLoading false])

/-- The continuation recording a bare `onSuccess` invocation. -/
def markerSuccess : JVal → List Ev :=
  fun p => [Ev.cbSuccess p]

/-- The continuation recording a bare `onError` invocation. -/
def markerError : String → List Ev :=
  fun m => [Ev.cbError m]

/-- The three-way classification of an intercepted navigation URL in
non-logout mode, mirroring the branch structure of
`handleNavigationStateChange` (src/index.tsx lines 476–504). -/
inductive NavClass where
  | redirectSuccess
  | redirectError
  | passThrough
deriving DecidableEq

/-- Classification of an intercepted URL against the configured
`redirectUri`, exactly as the code's conditions test it: the raw
string checks `url.startsWith(redirectUri) && url.includes('code=')`,
then `url.includes('error=')`. -/
def classifyNav (redirectUri url : String) : NavClass :=
  if strStartsWith url redirectUri && strContains url "code=" then
    .redirectSuccess
  else if strContains url "error=" then
    .redirectError
  else
    .passThrough

/-- `handleNavigationStateChange` (src/index.tsx lines 469–505):
returns `none` when the handler itself throws (the `new URL(url)` of
the error branch on an unparseable URL), otherwise the
allow/block decision together with the trace of events the handler
(and the handshake it launches) produces.  In the success branch the
executor's `onSuccess` is the wrapper that forwards to the host's
`onSuccess` and then invokes `onClose` when `closeOnSuccess` is
set. -/
def handleNavigationStateChange (logout : Bool)
    (redirectUri clientId clientSecret : String)
    (closeOnSuccess : Bool) (w : World) (url : String) :
    Option (Bool × List Ev) :=
  if logout then
    some (true, [])
  else if strStartsWith url redirectUri && strContains url "code=" then
    some (false,
      handleAuthCallback url clientId clientSecret redirectUri w
        (fun data =>
          Ev.cbSuccess data ::
            (if closeOnSuccess then [Ev.cbClose] else []))
        (fun m => [Ev.cbError m]))
  else if strContains url "error=" then
    match parseURL url with
    | none => none
    | some u =>
      some (false,
        [Ev.cbError (jsOrDefault (urlGet u "error_description") "Unknown error"),
         Ev.cbClose])
  else
    some (true, [])

/-- Does a trace contain an `onClose` invocation? -/
def hasClose : List Ev → Bool
  | [] => false
  | .cbClose :: _ => true
  | _ :: evs => hasClose evs

/-- Number of `onSuccess`/`onError` invocations in a trace. -/
def cbCount : List Ev → Nat
  | [] => 0
  | .cbSuccess _ :: evs => cbCount evs + 1
  | .cbError _ :: evs => cbCount evs + 1
  | _ :: evs => cbCount evs

/-- Is every event of the trace a network request?  (The `try` block
emits nothing else besides its outcome.) -/
def onlyFetchEvents : List Ev → Bool
  | [] => true
  | .fetchToken :: evs => onlyFetchEvents evs
  | .fetchProfile :: evs => onlyFetchEvents evs
  | _ :: _ => false

/-- Does a trace contain a network request? -/
def hasFetch : List Ev → Bool
  | [] => false
  | .fetchToken :: _ => true
  | .fetchProfile :: _ => true
  | _ :: evs => hasFetch evs

/-- A network oracle in which both transport promises reject the way
React Native's `fetch` rejects without connectivity. -/
def wNet : World :=
  World.mk (Except.error "Network Request Failed")
    (Except.error "Network Request Failed")

/-- A fully successful network oracle: the token endpoint answers 2xx
with an access token, the profile endpoint answers 2xx with a profile
object. -/
def wGood : World :=
  World.mk
    (Except.ok (FetchResult.mk true "OK"
      (Except.ok (JVal.jobj [("access_token", JVal.jstr "tok")]))))
    (Except.ok (FetchResult.mk true "OK"
      (Except.ok (JVal.jobj [("sub", JVal.jstr "u1")]))))

/-- Token exchange succeeds, the profile endpoint answers 2xx but with
an empty (hence unparseable) body: its `json()` rejects with the JSON
parser's message. -/
def wEmptyProfileBody : World :=
  World.mk
    (Except.ok (FetchResult.mk true "OK"
      (Except.ok (JVal.jobj [("access_token", JVal.jstr "tok")]))))
    (Except.ok (FetchResult.mk true "OK"
      (Except.error "Unexpected end of JSON input")))

/-- Token exchange succeeds, the profile endpoint answers 2xx with the
body `null` (which parses to a falsy value). -/
def wNullProfile : World :=
  World.mk
    (Except.ok (FetchResult.mk true "OK"
      (Except.ok (JVal.jobj [("access_token", JVal.jstr "tok")]))))
    (Except.ok (FetchResult.mk true "OK" (Except.ok JVal.jnull)))

theorem cbCount_append (a b : List Ev) :
    cbCount (a ++ b) = cbCount a + cbCount b := by
  induction a with
  | nil => simp [cbCount]
  | cons e t ih =>
    cases e <;> simp [cbCount, ih] <;> try omega

theorem hasClose_append (a b : List Ev) :
    hasClose (a ++ b) = (hasClose a || hasClose b) := by
  induction a with
  | nil => simp [hasClose]
  | cons e t ih => cases e <;> simp [hasClose, ih]

theorem cbCount_eq_zero_of_onlyFetch (evs : List Ev)
    (h : onlyFetchEvents evs = true) : cbCount evs = 0 := by
  induction evs with
  | nil => rfl
  | cons e t ih =>
    cases e <;> simp [onlyFetchEvents] at h <;> simp [cbCount, ih h]

theorem hasClose_eq_false_of_onlyFetch (evs : List Ev)
    (h : onlyFetchEvents evs = true) : hasClose evs = false := by
  induction evs with
  | nil => rfl
  | cons e t ih =>
    cases e <;> simp [onlyFetchEvents] at h <;> simp [hasClose, ih h]

/-- The `try` block emits network requests and nothing else: every
callback invocation of the executor happens outside of it. -/
theorem authAttempt_onlyFetch (url cid cs r : String) (w : World) :
    onlyFetchEvents (authAttempt url cid cs r w).1 = true := by
  unfold authAttempt
  repeat' split
  all_goals simp [apply_ite Prod.fst, apply_ite onlyFetchEvents, onlyFetchEvents]

/-- Unfolding equation for `handleAuthCallback`. -/
theorem handleAuthCallback_eq (url cid cs r : String) (w : World)
    (onS : JVal → List Ev) (onE : String → List Ev) :
    handleAuthCallback url cid cs r w onS onE =
      Ev.setLoading true ::
        ((authAttempt url cid cs r w).1 ++
          (match (authAttempt url cid cs r w).2 with
           | .ok p => onS p
           | .error m => onE (normalizeErrorMessage m)) ++
          [Ev.setLoading false]) := rfl

/-- C1 (amended): in non-logout mode the classifier returns
RedirectSuccess iff the URL starts with the configured `redirectUri`
and contains the raw substring `code=` anywhere. -/
theorem C1_success_iff_substring (redirectUri url : String) :
    classifyNav redirectUri url = NavClass.redirectSuccess ↔
      (strStartsWith url redirectUri = true ∧ strContains url "code=" = true) := by
  unfold classifyNav
  split_ifs with h1 h2 <;> simp_all

/-- C1 counterexample: a URL that starts with the redirect URI and has
`code=` only inside the parameter name `promo_code` carries no `code`
query parameter, yet is classified RedirectSuccess and blocks
navigation (the handshake is started). -/
theorem C1_counterexample :
    classifyNav "https://a/cb" "https://a/cb?promo_code=1" = NavClass.redirectSuccess ∧
    hasQueryParam "https://a/cb?promo_code=1" "code" = false ∧
    (handleNavigationStateChange false "https://a/cb" "id" "sec" true wNet
        "https://a/cb?promo_code=1").map Prod.fst = some false := by
  refine ⟨by decide, by decide, by rfl⟩

/-- C3: every run of the handshake executor emits `setIsLoading(true)`
first and `setIsLoading(false)` last, on every input, every network
outcome and every continuation. -/
theorem C3_loading_flag (url cid cs r : String) (w : World)
    (onS : JVal → List Ev) (onE : String → List Ev) :
    ∃ mid, handleAuthCallback url cid cs r w onS onE =
      Ev.setLoading true :: (mid ++ [Ev.setLoading false]) := by
  refine ⟨(authAttempt url cid cs r w).1 ++
    (match (authAttempt url cid cs r w).2 with
     | .ok p => onS p
     | .error m => onE (normalizeErrorMessage m)), ?_⟩
  rw [handleAuthCallback_eq]

/-- C8: whenever the success check matches (URL starts with
`redirectUri` and contains `code=`), the presence of an `error` query
parameter does not matter: the URL is classified RedirectSuccess. -/
theorem C8_success_precedes_error (redirectUri url : String)
    (h1 : strStartsWith url redirectUri = true)
    (h2 : strContains url "code=" = true)
    (_h3 : hasQueryParam url "error" = true) :
    classifyNav redirectUri url = NavClass.redirectSuccess := by
  unfold classifyNav
  simp [h1, h2]

/-- Witness for C8 at a URL carrying both a code and an error. -/
theorem C8_success_precedes_error_witness :
    classifyNav "https://a/cb" "https://a/cb?code=x&error=access_denied" =
      NavClass.redirectSuccess :=
  C8_success_precedes_error "https://a/cb" "https://a/cb?code=x&error=access_denied"
    (by decide) (by decide) (by decide)

/-- C9: with continuations that record one event per invocation,
every run of the handshake executor invokes exactly one of
`onSuccess`/`onError`, exactly once. -/
theorem C9_exactly_one_callback (url cid cs r : String) (w : World) :
    cbCount (handleAuthCallback url cid cs r w markerSuccess markerError) = 1 := by
  have h := authAttempt_onlyFetch url cid cs r w
  rcases hr : authAttempt url cid cs r w with ⟨evs, out⟩
  rw [hr] at h
  rw [handleAuthCallback_eq, hr]
  cases out with
  | ok p =>
    simp [cbCount, cbCount_append, cbCount_eq_zero_of_onlyFetch evs h,
      markerSuccess]
  | error m =>
    simp [cbCount, cbCount_append, cbCount_eq_zero_of_onlyFetch evs h,
      markerError]

/-- C10: the navigation handler is not total in the URL: a URL
containing `error=` that does not match the success shape and is not
an absolute URL makes the handler throw from `new URL(url)`. -/
theorem C10_handler_throws :
    ∃ url, strContains url "error=" = true ∧
      parseURL url = none ∧
      ¬(strStartsWith url "https://a/cb" = true ∧ strContains url "code=" = true) ∧
      handleNavigationStateChange false "https://a/cb" "id" "sec" true wNet url = none := by
  refine ⟨"error=x", by decide, by rfl, by decide, by rfl⟩

/-- C2 (amended): early failures of the handshake executor.  If the
callback URL's `error_description` parameter is present with a
non-empty value, the run fails with exactly that message before any
network request; otherwise, if the `code` parameter is absent or
empty, it fails with the fixed no-authorization-code message.  In both
cases the error callback is the only callback invoked and neither
endpoint is contacted. -/
theorem C2_early_failures (url cid cs r : String) (w : World)
    (u : ParsedURL) (hparse : parseURL url = some u) :
    (∀ d, urlGet u "error_description" = some d → d ≠ "" →
      authAttempt url cid cs r w = ([], Except.error d) ∧
      handleAuthCallback url cid cs r w markerSuccess markerError =
        [Ev.setLoading true, Ev.cbError (normalizeErrorMessage d),
         Ev.setLoading false]) ∧
    (strOptTruthy (urlGet u "error_description") = false →
      strOptTruthy (urlGet u "code") = false →
      authAttempt url cid cs r w =
        ([], Except.error "Authentication failed. No authorization code found.") ∧
      handleAuthCallback url cid cs r w markerSuccess markerError =
        [Ev.setLoading true,
         Ev.cbError "Authentication failed. No authorization code found.",
         Ev.setLoading false]) := by
  constructor
  · intro d hd hne
    have hattempt : authAttempt url cid cs r w = ([], Except.error d) := by
      unfold authAttempt
      rw [hparse]
      simp [hd, strOptTruthy, hne]
    refine ⟨hattempt, ?_⟩
    rw [handleAuthCallback_eq, hattempt]
    simp [markerError]
  · intro hdesc hcode
    have hattempt : authAttempt url cid cs r w =
        ([], Except.error "Authentication failed. No authorization code found.") := by
      unfold authAttempt
      rw [hparse]
      simp [hdesc, hcode]
    refine ⟨hattempt, ?_⟩
    rw [handleAuthCallback_eq, hattempt]
    have : normalizeErrorMessage
        "Authentication failed. No authorization code found." =
        "Authentication failed. No authorization code found." := by decide
    simp [markerError, this]

/-- Witness for C2 at a URL with a non-empty `error_description` and
at one with neither `error_description` nor `code`. -/
theorem C2_early_failures_witness :
    handleAuthCallback "https://a/cb?error_description=denied" "id" "sec"
        "https://a/cb" wGood markerSuccess markerError =
      [Ev.setLoading true, Ev.cbError "denied", Ev.setLoading false] ∧
    handleAuthCallback "https://a/cb?state=1" "id" "sec"
        "https://a/cb" wGood markerSuccess markerError =
      [Ev.setLoading true,
       Ev.cbError "Authentication failed. No authorization code found.",
       Ev.setLoading false] := by
  constructor
  · have h := (C2_early_failures "https://a/cb?error_description=denied"
      "id" "sec" "https://a/cb" wGood
      ⟨[("error_description", "denied")]⟩ (by rfl)).1 "denied" (by rfl) (by decide)
    have hnorm : normalizeErrorMessage "denied" = "denied" := by decide
    rw [hnorm] at h
    exact h.2
  · exact ((C2_early_failures "https://a/cb?state=1" "id" "sec" "https://a/cb"
      wGood ⟨[("state", "1")]⟩ (by rfl)).2 (by decide) (by decide)).2

/-- C2 counterexample: `error_description` present but empty is
skipped by the truthiness check — the run does not fail with it, the
token endpoint is contacted, and the run even succeeds. -/
theorem C2_counterexample :
    hasQueryParam "https://a/cb?error_description=&code=x" "error_description" = true ∧
    handleAuthCallback "https://a/cb?error_description=&code=x" "id" "sec"
        "https://a/cb" wGood markerSuccess markerError =
      [Ev.setLoading true, Ev.fetchToken, Ev.fetchProfile,
       Ev.cbSuccess (JVal.jobj [("sub", JVal.jstr "u1")]), Ev.setLoading false] := by
  exact ⟨by decide, by rfl⟩

/-- C4: every failure outcome is surfaced through the error callback
after normalization: messages containing `network request failed`
case-insensitively become the fixed connectivity message, all other
messages pass through unchanged. -/
theorem C4_error_normalization (url cid cs r : String) (w : World)
    (evs : List Ev) (m : String)
    (h : authAttempt url cid cs r w = (evs, Except.error m)) :
    handleAuthCallback url cid cs r w markerSuccess markerError =
      Ev.setLoading true ::
        (evs ++ [Ev.cbError (normalizeErrorMessage m), Ev.setLoading false]) ∧
    (strContains (asciiLowerStr m) "network request failed" = true →
      normalizeErrorMessage m =
        "Network error. Please check your internet connection.") ∧
    (strContains (asciiLowerStr m) "network request failed" = false →
      normalizeErrorMessage m = m) := by
  refine ⟨?_, ?_, ?_⟩
  · rw [handleAuthCallback_eq, h]
    simp [markerError]
  · intro hc
    simp [normalizeErrorMessage, hc]
  · intro hc
    simp [normalizeErrorMessage, hc]

/-- Witness for C4: a transport rejection whose mixed-case message
contains `Network Request Failed` surfaces as the fixed connectivity
message. -/
theorem C4_error_normalization_witness :
    handleAuthCallback "https://a/cb?code=x" "id" "sec" "https://a/cb" wNet
        markerSuccess markerError =
      [Ev.setLoading true, Ev.fetchToken,
       Ev.cbError "Network error. Please check your internet connection.",
       Ev.setLoading false] := by
  have h := C4_error_normalization "https://a/cb?code=x" "id" "sec"
    "https://a/cb" wNet [Ev.fetchToken] "Network Request Failed" (by rfl)
  have hnorm := h.2.1 (by decide)
  have := h.1
  rw [hnorm] at this
  exact this

/-- C5 (amended): on a URL the code classifies RedirectError (contains
the substring `error=` and does not match the success check) that
parses as an absolute URL, navigation is blocked, the error callback
receives the `error_description` value when present and non-empty and
the default `Unknown error` otherwise, then the close callback runs,
and no network request is made. -/
theorem C5_redirect_error (r cid cs : String) (cos : Bool) (w : World)
    (url : String) (u : ParsedURL)
    (hclass : classifyNav r url = NavClass.redirectError)
    (hparse : parseURL url = some u) :
    handleNavigationStateChange false r cid cs cos w url =
      some (false,
        [Ev.cbError (jsOrDefault (urlGet u "error_description") "Unknown error"),
         Ev.cbClose]) ∧
    hasFetch
      [Ev.cbError (jsOrDefault (urlGet u "error_description") "Unknown error"),
       Ev.cbClose] = false := by
  unfold classifyNav at hclass
  split_ifs at hclass with h1 h2
  have h1' : (strStartsWith url r && strContains url "code=") = false := by
    simpa using h1
  refine ⟨?_, rfl⟩
  simp [handleNavigationStateChange, h1', h2, hparse]

/-- Witness for C5 at the access-denied URL of the test suite. -/
theorem C5_redirect_error_witness :
    handleNavigationStateChange false "https://a/cb" "id" "sec" true wNet
        "https://a/cb2?error=access_denied&error_description=User+denied" =
      some (false, [Ev.cbError "User denied", Ev.cbClose]) := by
  have h := (C5_redirect_error "https://a/cb" "id" "sec" true wNet
    "https://a/cb2?error=access_denied&error_description=User+denied"
    ⟨[("error", "access_denied"), ("error_description", "User denied")]⟩
    (by decide) (by rfl)).1
  have hv : jsOrDefault
      (urlGet ⟨[("error", "access_denied"), ("error_description", "User denied")]⟩
        "error_description") "Unknown error" = "User denied" := by decide
  rw [hv] at h
  exact h

/-- C5 counterexample: a URL carrying an `error` query parameter
written without `=` (so the raw string lacks the substring `error=`)
is passed through — navigation is allowed and no callback runs —
contradicting the claim for URLs with an `error` query parameter. -/
theorem C5_counterexample :
    hasQueryParam "https://a/cb?error" "error" = true ∧
    classifyNav "https://a/cb" "https://a/cb?error" ≠ NavClass.redirectSuccess ∧
    handleNavigationStateChange false "https://a/cb" "id" "sec" true wNet
        "https://a/cb?error" = some (true, []) := by
  exact ⟨by decide, by decide, by rfl⟩

/-- C6 (amended): when the handshake reaches the profile fetch, the
response is 2xx and its body parses to a falsy JSON value (such as the
literal `null`), the run fails with exactly
`Failed to parse profile data.`.  (An empty or unparseable 2xx body
instead makes `json()` reject, surfacing the JSON parser's own
message — see the counterexample.) -/
theorem C6_falsy_profile (url cid cs r : String) (w : World) (u : ParsedURL)
    (hparse : parseURL url = some u)
    (hdesc : strOptTruthy (urlGet u "error_description") = false)
    (hcode : strOptTruthy (urlGet u "code") = true)
    (tresp : FetchResult) (htok : w.tokenFetch = Except.ok tresp)
    (htokOk : tresp.ok = true)
    (tv : JVal) (htv : tresp.jsonResult = Except.ok tv)
    (hat : jOptTruthy (jGet tv "access_token") = true)
    (presp : FetchResult) (hprof : w.profileFetch = Except.ok presp)
    (hprofOk : presp.ok = true)
    (pv : JVal) (hpv : presp.jsonResult = Except.ok pv)
    (hfalsy : jTruthy pv = false) :
    authAttempt url cid cs r w =
      ([Ev.fetchToken, Ev.fetchProfile],
       Except.error "Failed to parse profile data.") ∧
    handleAuthCallback url cid cs r w markerSuccess markerError =
      [Ev.setLoading true, Ev.fetchToken, Ev.fetchProfile,
       Ev.cbError "Failed to parse profile data.", Ev.setLoading false] := by
  have hattempt : authAttempt url cid cs r w =
      ([Ev.fetchToken, Ev.fetchProfile],
       Except.error "Failed to parse profile data.") := by
    unfold authAttempt
    simp [hparse, htok, htv, hprof, hpv, hdesc, hcode, htokOk, hat, hprofOk,
      hfalsy]
  refine ⟨hattempt, ?_⟩
  rw [handleAuthCallback_eq, hattempt]
  have hnorm : normalizeErrorMessage "Failed to parse profile data." =
      "Failed to parse profile data." := by decide
  simp [markerError, hnorm]

/-- Witness for C6: profile endpoint answering 2xx with body `null`. -/
theorem C6_falsy_profile_witness :
    handleAuthCallback "https://a/cb?code=x" "id" "sec" "https://a/cb"
        wNullProfile markerSuccess markerError =
      [Ev.setLoading true, Ev.fetchToken, Ev.fetchProfile,
       Ev.cbError "Failed to parse profile data.", Ev.setLoading false] :=
  (C6_falsy_profile "https://a/cb?code=x" "id" "sec" "https://a/cb"
    wNullProfile ⟨[("code", "x")]⟩ (by rfl) (by decide) (by decide)
    _ (by rfl) (by rfl) _ (by rfl) (by decide)
    _ (by rfl) (by rfl) _ (by rfl) (by rfl)).2

/-- C6 counterexample: on a 2xx profile response with an empty
(unparseable) body, `json()` rejects and the parser's message — not
the fixed `Failed to parse profile data.` — reaches the error
callback. -/
theorem C6_counterexample :
    handleAuthCallback "https://a/cb?code=x" "id" "sec" "https://a/cb"
        wEmptyProfileBody markerSuccess markerError =
      [Ev.setLoading true, Ev.fetchToken, Ev.fetchProfile,
       Ev.cbError "Unexpected end of JSON input", Ev.setLoading false] ∧
    "Unexpected end of JSON input" ≠ "Failed to parse profile data." := by
  exact ⟨by rfl, by decide⟩

/-- C7: for an intercepted URL matching the success check, a handshake
failure invokes only the error callback — the close callback never
appears in the trace — while a successful handshake (with
`closeOnSuccess` true) invokes the success callback with the profile
and then the close callback. -/
theorem C7_close_asymmetry (r cid cs url : String) (w : World)
    (h1 : strStartsWith url r = true) (h2 : strContains url "code=" = true) :
    (∀ evs m, authAttempt url cid cs r w = (evs, Except.error m) →
      handleNavigationStateChange false r cid cs true w url =
        some (false, Ev.setLoading true ::
          (evs ++ [Ev.cbError (normalizeErrorMessage m), Ev.setLoading false])) ∧
      hasClose (Ev.setLoading true ::
        (evs ++ [Ev.cbError (normalizeErrorMessage m), Ev.setLoading false])) = false) ∧
    (∀ evs p, authAttempt url cid cs r w = (evs, Except.ok p) →
      handleNavigationStateChange false r cid cs true w url =
        some (false, Ev.setLoading true ::
          (evs ++ [Ev.cbSuccess p, Ev.cbClose, Ev.setLoading false]))) := by
  have hcond : (strStartsWith url r && strContains url "code=") = true := by
    simp [h1, h2]
  constructor
  · intro evs m hm
    have honly := authAttempt_onlyFetch url cid cs r w
    rw [hm] at honly
    constructor
    · simp only [handleNavigationStateChange, hcond, if_true, if_false,
        Bool.false_eq_true]
      rw [handleAuthCallback_eq, hm]
      simp
    · simp [hasClose, hasClose_append,
        hasClose_eq_false_of_onlyFetch evs honly]
  · intro evs p hp
    simp only [handleNavigationStateChange, hcond, if_true, if_false,
      Bool.false_eq_true]
    rw [handleAuthCallback_eq, hp]
    simp

/-- Witness for C7: success at a good network oracle (close follows
success), failure at a rejecting oracle (no close in the trace). -/
theorem C7_close_asymmetry_witness :
    handleNavigationStateChange false "https://a/cb" "id" "sec" true wGood
        "https://a/cb?code=x" =
      some (false, [Ev.setLoading true, Ev.fetchToken, Ev.fetchProfile,
        Ev.cbSuccess (JVal.jobj [("sub", JVal.jstr "u1")]), Ev.cbClose,
        Ev.setLoading false]) ∧
    hasClose (Ev.setLoading true :: ([Ev.fetchToken] ++
      [Ev.cbError (normalizeErrorMessage "Network Request Failed"),
       Ev.setLoading false])) = false := by
  constructor
  · have h := (C7_close_asymmetry "https://a/cb" "id" "sec"
      "https://a/cb?code=x" wGood (by decide) (by decide)).2
      [Ev.fetchToken, Ev.fetchProfile]
      (JVal.jobj [("sub", JVal.jstr "u1")]) (by rfl)
    simpa using h
  · exact ((C7_close_asymmetry "https://a/cb" "id" "sec"
      "https://a/cb?code=x" wNet (by decide) (by decide)).1
      [Ev.fetchToken] "Network Request Failed" (by rfl)).2
